import Mathlib

/-!
Verification development for the go-raytracer repository.

Part I embeds the GML scene-language evaluator (internal/gml: `evaluator.go`,
token groups from `expr.go`): the value type, the evaluator state (value
stack plus environment), the builtin table, and the fuel-indexed evaluation
function.  Go's mutable state (`*EvalState`) is rendered as explicit state
passing: every operation returns the updated state together with an optional
error, matching Go's convention that a failing operation has already applied
its partial mutations.  Go maps are rendered as association lists where a
later binding shadows an earlier one, and `maps.Clone` becomes the identity
(value semantics).  The value stack keeps Go's orientation: the top of the
stack is the LAST element of the list (Go appends to the end of a slice).

Part II embeds the renderer (`raytracer.go`): vectors over ℝ, sphere
intersection, shading, and the recursive `traceRay`.  Go float64 arithmetic
is modelled over ℝ; the one place where IEEE special values are
semantically load-bearing (`math.Sqrt` of a negative discriminant produces
NaN, and `NaN > 0` is false) is modelled by `fsqrt : ℝ → Option ℝ` with
`none` playing the role of NaN.  `traceRay` threads the scene value through
explicitly because Go's `traceRay` mutates `scene.BgColorStart` in place
(`LerpI` has a pointer receiver), and threads the single shared GML
interpreter state (`Sphere.EvalState`, one per render in
`ParseAndRenderGML`) as an `Option Gml.EvalState`.
-/

namespace Gml

/-- Token groups, from `internal/gml/expr.go` (`IntLiteral`, `FloatLiteral`,
`BoolLiteral`, `StringLiteral`, `Identifier`, `Binder`, `Function`, `Array`).
Go `float64` literals are modelled as real numbers. -/
inductive TokenGroup where
  | intLit (value : ℤ)
  | floatLit (value : ℝ)
  | boolLit (value : Bool)
  | stringLit (value : String)
  | identifier (name : String)
  | binder (name : String)
  | function (body : List TokenGroup)
  | array (elements : List TokenGroup)

/-- Runtime values, from `evaluator.go`: `VInt`, `VReal`, `VBool`, `VString`,
`VClosure`, `VArray`, `Point`, `Sphere`, `Union`, `PointLight`.  The Go
`SceneObject` interface is implemented exactly by `*Sphere` and `*Union`,
so "is a SceneObject" is a predicate on this closed value type.  A closure's
(or a sphere's captured surface closure's) environment is an association
list; later entries shadow earlier ones. -/
inductive Value where
  | vint (n : ℤ)
  | vreal (r : ℝ)
  | vbool (b : Bool)
  | vstring (s : String)
  | vclosure (code : List TokenGroup) (env : List (String × Value))
  | varray (elements : List Value)
  | vpoint (x y z : ℝ)
  | vsphere (cx cy cz radius : ℝ)
      (surfCode : List TokenGroup) (surfEnv : List (String × Value))
  | vunion (objects : List Value)
  | vpointlight (px py pz cr cg cb : ℝ)

/-- The data of one `PointLight` delivered through `RenderArgs`. -/
structure PointLightData where
  px : ℝ
  py : ℝ
  pz : ℝ
  cr : ℝ
  cg : ℝ
  cb : ℝ

/-- The argument record the `render` builtin delivers to the render sink
(`RenderArgs` in `evaluator.go`). -/
structure RenderArgs where
  ambient : ℝ × ℝ × ℝ
  lights : List PointLightData
  scene : Value
  depth : ℤ
  fov : ℝ
  width : ℤ
  height : ℤ
  file : String

/-- Evaluator state: the value stack (top = last element, as in the Go
slice), the environment, and the render callback.  Go's `Render
func(*RenderArgs)` field is modelled observably: `renderSink` says whether a
callback is installed (`e.Render != nil`) and `rendered` logs the argument
records it has been handed.  The `CurrToken`/`Tracer` fields only feed debug
messages and are omitted. -/
structure EvalState where
  stack : List Value
  env : List (String × Value)
  renderSink : Bool
  rendered : List RenderArgs

/-- Evaluation errors of `evaluator.go` (`ErrEmptyStack`,
`ErrUnboundIdentifier`, the type-mismatch error of `popValue`, the
`errNotImplemented` of a builtin registered with a nil function, the two
error returns of the `render` builtin).  `fuelExhausted` is an artifact of
the fuel-indexed model only: Go recursion that would exceed the fuel maps to
it, and no theorem below identifies it with a program error. -/
inductive EvalError where
  | emptyStack
  | unboundIdentifier (name : String)
  | typeMismatch
  | notImplemented (name : String)
  | renderFunctionNotSet
  | lightsNotPointLights
  | fuelExhausted
deriving DecidableEq

/-- Environment lookup (`e.Env[name]` on a Go map): first match wins, so a
later `envBind` shadows an earlier binding. -/
def envLookup (env : List (String × Value)) (name : String) : Option Value :=
  match env with
  | [] => none
  | (k, v) :: rest => if k = name then some v else envLookup rest name

/-- Environment update (`e.Env[name] = v` on a Go map): the new binding
shadows any previous one. -/
def envBind (env : List (String × Value)) (name : String) (v : Value) :
    List (String × Value) :=
  (name, v) :: env

/-- Go `(*EvalState).push`: append to the end of the stack slice. -/
def push (v : Value) (e : EvalState) : EvalState :=
  { e with stack := e.stack ++ [v] }

/-- Go `(*EvalState).pop`: error on an empty stack, otherwise remove and return
the last element.  On error the state is unchanged. -/
def pop (e : EvalState) : Except EvalError Value × EvalState :=
  match e.stack.getLast? with
  | none => (.error .emptyStack, e)
  | some v => (.ok v, { e with stack := e.stack.dropLast })

/-- Go `popValue[T]`: pop, then type-assert.  The pop has already happened when
the assertion fails, so a type mismatch leaves the stack one element
shorter (the Go code does not push the offending value back). -/
def popValue {α : Type} (proj : Value → Option α) (e : EvalState) :
    Except EvalError α × EvalState :=
  match pop e with
  | (.error err, e') => (.error err, e')
  | (.ok v, e') =>
    match proj v with
    | some x => (.ok x, e')
    | none => (.error .typeMismatch, e')

/-- Go `pop3[T]`: pops `z` (top of stack), then `y`, then `x`, and returns
`(x, y, z)`; the first failure aborts with the pops so far kept. -/
def pop3 {α : Type} (proj : Value → Option α) (e : EvalState) :
    Except EvalError (α × α × α) × EvalState :=
  match popValue proj e with
  | (.error err, e1) => (.error err, e1)
  | (.ok z, e1) =>
    match popValue proj e1 with
    | (.error err, e2) => (.error err, e2)
    | (.ok y, e2) =>
      match popValue proj e2 with
      | (.error err, e3) => (.error err, e3)
      | (.ok x, e3) => (.ok (x, y, z), e3)

/-- Type assertion `v.(VInt)`. -/
def asVInt : Value → Option ℤ
  | .vint n => some n
  | _ => none

/-- Type assertion `v.(VReal)`. -/
def asVReal : Value → Option ℝ
  | .vreal r => some r
  | _ => none

/-- Type assertion `v.(VClosure)`: the closure's code and captured
environment. -/
def asVClosure : Value → Option (List TokenGroup × List (String × Value))
  | .vclosure code env => some (code, env)
  | _ => none

/-- Type assertion `v.(VArray)`. -/
def asVArray : Value → Option (List Value)
  | .varray elems => some elems
  | _ => none

/-- Type assertion `v.(VString)`. -/
def asVString : Value → Option String
  | .vstring s => some s
  | _ => none

/-- Type assertion `v.(Point)`. -/
def asPoint : Value → Option (ℝ × ℝ × ℝ)
  | .vpoint x y z => some (x, y, z)
  | _ => none

/-- Type assertion `v.(SceneObject)`: exactly `*Sphere` and `*Union`
implement the `SceneObject` interface in `evaluator.go`. -/
def asSceneObject : Value → Option Value
  | .vsphere cx cy cz r code env => some (.vsphere cx cy cz r code env)
  | .vunion objs => some (.vunion objs)
  | _ => none

/-- Type assertion `l.(*PointLight)` used by the `render` builtin. -/
def asPointLight : Value → Option PointLightData
  | .vpointlight px py pz cr cg cb => some ⟨px, py, pz, cr, cg, cb⟩
  | _ => none

mutual

/-- Go `Sphere.Translate` / `Union.Translate`: a sphere moves its center, a
union translates every child and rebuilds; other values are never scene
objects so translation leaves them unchanged (unreachable in the Go code,
which dispatches through the `SceneObject` interface). -/
def translateObj (x y z : ℝ) : Value → Value
  | .vsphere cx cy cz r code env =>
      .vsphere (cx + x) (cy + y) (cz + z) r code env
  | .vunion objs => .vunion (translateObjList x y z objs)
  | v => v

def translateObjList (x y z : ℝ) : List Value → List Value
  | [] => []
  | o :: rest => translateObj x y z o :: translateObjList x y z rest

end

/-- Names of the builtins registered with a non-nil function in the `init`
block of `evaluator.go`. -/
inductive BuiltinName where
  | addi
  | apply
  | point
  | pointlight
  | sphere
  | translate
  | union
  | render
deriving DecidableEq

/-- The builtin registry from the `init` block.  `some none` is a name
registered with a nil function (`cube`, `plane`, `uscale`, `rotatex`,
`rotatey`, `rotatez`); running it fails with `notImplemented`.  `point` is
registered twice — first with nil, then with the real function — and the
map write-wins, so it resolves to the implementation. -/
def builtins (name : String) : Option (Option BuiltinName) :=
  if name = "addi" then some (some .addi)
  else if name = "apply" then some (some .apply)
  else if name = "cube" then some none
  else if name = "sphere" then some (some .sphere)
  else if name = "plane" then some none
  else if name = "point" then some (some .point)
  else if name = "pointlight" then some (some .pointlight)
  else if name = "translate" then some (some .translate)
  else if name = "uscale" then some none
  else if name = "rotatex" then some none
  else if name = "rotatey" then some none
  else if name = "rotatez" then some none
  else if name = "union" then some (some .union)
  else if name = "render" then some (some .render)
  else none

/-- The `addi` builtin: pop `a` (top), pop `b`, push `a + b`. -/
def addi (e : EvalState) : EvalState × Option EvalError :=
  match popValue asVInt e with
  | (.error err, e1) => (e1, some err)
  | (.ok a, e1) =>
    match popValue asVInt e1 with
    | (.error err, e2) => (e2, some err)
    | (.ok b, e2) => (push (.vint (a + b)) e2, none)

/-- The `apply` builtin: pop a closure, save the environment, run the body
under the closure's captured environment, and restore the saved environment
unconditionally (Go's `defer`) — on success and on failure alike.  The body
runs with the evaluation function `evalF` supplied by the evaluator (the
fuel-indexed `evalT` below); nothing is done to the stack besides the pop,
so the body sees the caller's remaining stack and its stack effects
survive the call. -/
def apply (evalF : List TokenGroup → EvalState → EvalState × Option EvalError)
    (e : EvalState) : EvalState × Option EvalError :=
  match popValue asVClosure e with
  | (.error err, e') => (e', some err)
  | (.ok c, e') =>
    let oldEnv := e'.env
    let r := evalF c.1 { e' with env := c.2 }
    ({ r.1 with env := oldEnv }, r.2)

/-- The `point` builtin: pop z, y, x reals, push `Point(x, y, z)`. -/
def point (e : EvalState) : EvalState × Option EvalError :=
  match pop3 asVReal e with
  | (.error err, e1) => (e1, some err)
  | (.ok (x, y, z), e1) => (push (.vpoint x y z) e1, none)

/-- The `pointlight` builtin: pop the color point, then the position point,
push a `PointLight`. -/
def pointlight (e : EvalState) : EvalState × Option EvalError :=
  match popValue asPoint e with
  | (.error err, e1) => (e1, some err)
  | (.ok c, e1) =>
    match popValue asPoint e1 with
    | (.error err, e2) => (e2, some err)
    | (.ok p, e2) =>
      (push (.vpointlight p.1 p.2.1 p.2.2 c.1 c.2.1 c.2.2) e2, none)

/-- The `sphere` builtin: pop the surface closure, push the unit sphere at
the origin carrying it. -/
def sphere (e : EvalState) : EvalState × Option EvalError :=
  match popValue asVClosure e with
  | (.error err, e1) => (e1, some err)
  | (.ok c, e1) => (push (.vsphere 0 0 0 1 c.1 c.2) e1, none)

/-- The `translate` builtin: pop z, y, x reals, pop a scene object, push its
translation. -/
def translate (e : EvalState) : EvalState × Option EvalError :=
  match pop3 asVReal e with
  | (.error err, e1) => (e1, some err)
  | (.ok (x, y, z), e1) =>
    match popValue asSceneObject e1 with
    | (.error err, e2) => (e2, some err)
    | (.ok s, e2) => (push (translateObj x y z s) e2, none)

/-- The `union` builtin: pop `a` (top of stack), pop `b`, push
`Union{Objects: []SceneObject{a, b}}` — the first-popped object is the
FIRST child. -/
def union (e : EvalState) : EvalState × Option EvalError :=
  match popValue asSceneObject e with
  | (.error err, e1) => (e1, some err)
  | (.ok a, e1) =>
    match popValue asSceneObject e1 with
    | (.error err, e2) => (e2, some err)
    | (.ok b, e2) => (push (.vunion [a, b]) e2, none)

/-- Checks that every element of the popped lights array is a `*PointLight`
(the loop in the `render` builtin), collecting them in order. -/
def extractLights : List Value → Option (List PointLightData)
  | [] => some []
  | v :: rest =>
    match asPointLight v with
    | none => none
    | some l => (extractLights rest).map (l :: ·)

/-- The `render` builtin: pop file, height, width, fov, depth, scene object,
lights array, ambient point (in that order); fail if a lights element is
not a `*PointLight` or no render callback is installed; otherwise deliver
the assembled `RenderArgs` to the sink. -/
def render (e : EvalState) : EvalState × Option EvalError :=
  match popValue asVString e with
  | (.error err, e1) => (e1, some err)
  | (.ok file, e1) =>
  match popValue asVInt e1 with
  | (.error err, e2) => (e2, some err)
  | (.ok height, e2) =>
  match popValue asVInt e2 with
  | (.error err, e3) => (e3, some err)
  | (.ok width, e3) =>
  match popValue asVReal e3 with
  | (.error err, e4) => (e4, some err)
  | (.ok fov, e4) =>
  match popValue asVInt e4 with
  | (.error err, e5) => (e5, some err)
  | (.ok depth, e5) =>
  match popValue asSceneObject e5 with
  | (.error err, e6) => (e6, some err)
  | (.ok obj, e6) =>
  match popValue asVArray e6 with
  | (.error err, e7) => (e7, some err)
  | (.ok lights, e7) =>
  match popValue asPoint e7 with
  | (.error err, e8) => (e8, some err)
  | (.ok amb, e8) =>
    match extractLights lights with
    | none => (e8, some .lightsNotPointLights)
    | some ls =>
      if e8.renderSink then
        ({ e8 with rendered := e8.rendered ++
            [⟨amb, ls, obj, depth, fov, width, height, file⟩] }, none)
      else (e8, some .renderFunctionNotSet)

/-- The evaluator: `Eval` runs token groups left to right and stops at the
first error; `evalOneStep` is inlined as the big match.  Literals push
their value; a function literal snapshots the current environment
(`maps.Clone`) into a closure; a binder pops and binds; an identifier runs
a builtin if one is registered (builtins take precedence) and otherwise
looks the name up in the environment; an array literal evaluates its
elements against a fresh empty stack and pushes the accumulated values as
one `VArray` onto the saved outer stack, the outer stack being restored
as-is if an element fails (the `defer` in the `*Array` case).  The `fuel`
argument only bounds recursion through `apply` bodies and array elements so
that the function is total; Go's unknown-token default case cannot arise
because `TokenGroup` is closed. -/
def evalT : ℕ → List TokenGroup → EvalState → EvalState × Option EvalError
  | _, [], e => (e, none)
  | 0, _ :: _, e => (e, some .fuelExhausted)
  | fuel + 1, t :: rest, e =>
    let step : EvalState × Option EvalError :=
      match t with
      | .intLit n => (push (.vint n) e, none)
      | .floatLit r => (push (.vreal r) e, none)
      | .boolLit b => (push (.vbool b) e, none)
      | .stringLit s => (push (.vstring s) e, none)
      | .function body => (push (.vclosure body e.env) e, none)
      | .binder name =>
        match pop e with
        | (.error err, e') => (e', some err)
        | (.ok v, e') => ({ e' with env := envBind e'.env name v }, none)
      | .identifier name =>
        match builtins name with
        | some none => (e, some (.notImplemented name))
        | some (some .addi) => addi e
        | some (some .apply) => apply (evalT fuel) e
        | some (some .point) => point e
        | some (some .pointlight) => pointlight e
        | some (some .sphere) => sphere e
        | some (some .translate) => translate e
        | some (some .union) => union e
        | some (some .render) => render e
        | none =>
          match envLookup e.env name with
          | some v => (push v e, none)
          | none => (e, some (.unboundIdentifier name))
      | .array elems =>
        match evalT fuel elems { e with stack := [] } with
        | (e', none) =>
          ({ e' with stack := e.stack ++ [.varray e'.stack] }, none)
        | (e', some err) => ({ e' with stack := e.stack }, some err)
    match step with
    | (e', none) => evalT fuel rest e'
    | r => r

/-- Go `NewEvalState` with a render callback installed (as `ParseAndRenderGML`
does before evaluating). -/
def initState : EvalState :=
  { stack := [], env := [], renderSink := true, rendered := [] }

end Gml

namespace Rt

/-- Go `Vec3` from `raytracer.go`; `float64` components are modelled as ℝ. -/
structure Vec3 where
  x : ℝ
  y : ℝ
  z : ℝ

/-- Go `Vec3.Add` (and the in-place `AddI`, pure here). -/
def addV (v w : Vec3) : Vec3 := ⟨v.x + w.x, v.y + w.y, v.z + w.z⟩

/-- Go `Vec3.Sub`. -/
def subV (v w : Vec3) : Vec3 := ⟨v.x - w.x, v.y - w.y, v.z - w.z⟩

/-- Go `Vec3.Mul` (pointwise). -/
def mulV (v w : Vec3) : Vec3 := ⟨v.x * w.x, v.y * w.y, v.z * w.z⟩

/-- Go `Vec3.Scale`. -/
def scaleV (v : Vec3) (s : ℝ) : Vec3 := ⟨v.x * s, v.y * s, v.z * s⟩

/-- Go `Vec3.Neg`. -/
def negV (v : Vec3) : Vec3 := ⟨-v.x, -v.y, -v.z⟩

/-- Go `Vec3.Dot`. -/
def dotV (v w : Vec3) : ℝ := v.x * w.x + v.y * w.y + v.z * w.z

/-- Go `Vec3.Length`. -/
noncomputable def lengthV (v : Vec3) : ℝ :=
  Real.sqrt (v.x * v.x + v.y * v.y + v.z * v.z)

/-- Go `Vec3.Normalize`: componentwise division by the magnitude.  (Go divides
by zero to IEEE infinities on a zero vector; Mathlib division by zero gives
zero.  No claim below exercises that case.) -/
noncomputable def normalizeV (v : Vec3) : Vec3 :=
  let m := lengthV v
  ⟨v.x / m, v.y / m, v.z / m⟩

/-- Go `Vec3.CosineSimilarity`. -/
noncomputable def cosineSimilarityV (v w : Vec3) : ℝ :=
  dotV v w / (lengthV v * lengthV w)

/-- Go `Vec3.LerpI` — the in-place linear interpolation `v += (other−v)·t`.
The mutation of the receiver is modelled where it happens: `traceRay`'s
miss branch writes the result back into `scene.BgColorStart`. -/
def lerpV (v other : Vec3) (t : ℝ) : Vec3 :=
  ⟨v.x + (other.x - v.x) * t, v.y + (other.y - v.y) * t,
   v.z + (other.z - v.z) * t⟩

/-- Go `clamp(min, max, x) = math.Min(math.Max(x, min), max)`. -/
noncomputable def clamp (lo hi x : ℝ) : ℝ := min (max x lo) hi

/-- Go `Vec3.ClampI`: clamp each channel into [0, 1]. -/
noncomputable def clampV (c : Vec3) : Vec3 :=
  ⟨clamp 0 1 c.x, clamp 0 1 c.y, clamp 0 1 c.z⟩

/-- Go `Ray` from `raytracer.go`. -/
structure RRay where
  origin : Vec3
  direction : Vec3

/-- Go `Material` from `raytracer.go`. -/
structure RMaterial where
  color : Vec3
  reflectivity : ℝ
  fuzziness : ℝ
  transparency : ℝ
  refractiveIndex : ℝ
  kd : ℝ
  ks : ℝ
  specularExponent : ℝ

/-- The data of a non-nil `*gml.VClosure` surface shader. -/
structure SurfaceClosure where
  code : List Gml.TokenGroup
  env : List (String × Gml.Value)

/-- The renderer's `Sphere` (the only implementor of the renderer's
`SceneObject` interface).  Go's per-sphere `EvalState *gml.EvalState`
pointer always refers to the single interpreter state created in
`ParseAndRenderGML` (see `convertGMLSceneObjects`), so that shared state is
threaded separately as an `Option Gml.EvalState` (`none` models a nil
pointer). -/
structure RSphere where
  center : Vec3
  radius : ℝ
  material : RMaterial
  surfaceFn : Option SurfaceClosure

/-- The shared GML interpreter state referenced by the spheres. -/
abbrev GST := Option Gml.EvalState

/-- Go `Hit` from `raytracer.go`.  Go stores the hit object as a pointer
(`Object SceneObject`) and compares it by identity in `inShadow`; distinct
positions in the scene's object list are modelled by the index. -/
structure Hit where
  objIdx : ℕ
  t : ℝ
  point : Vec3
  normal : Vec3
  material : RMaterial

/-- Go `Light` from `raytracer.go`. -/
structure RLight where
  position : Vec3
  color : Vec3

/-- Go `Scene` from `raytracer.go`.  `Objects []SceneObject` holds only
spheres (the sole implementor). -/
structure Scene where
  widthPx : ℤ
  heightPx : ℤ
  fov : ℝ
  recursionDepth : ℤ
  objects : List RSphere
  lights : List RLight
  ambientLight : Vec3
  bgColorStart : Vec3
  bgColorEnd : Vec3

/-- Errors of `computeSphereSurface`: the "sphere has no eval state" error,
or a failure propagated from the GML evaluation / the result pops. -/
inductive SurfaceError where
  | noEvalState
  | evalError (e : Gml.EvalError)
deriving DecidableEq

/-- Go `v = (point.Y + 1.0) / 2.0` in `computeSphereSurface`. -/
noncomputable def sphereSurfaceV (p : Vec3) : ℝ := (p.y + 1) / 2

/-- Go `u = acos(point.Z / sqrt(1 − point.Y²)) / (2π)` in
`computeSphereSurface`.  `Real.sqrt` and `Real.arccos` are total where the
IEEE functions produce NaN out of domain; no claim depends on the numeric
value of `u`. -/
noncomputable def sphereSurfaceU (p : Vec3) : ℝ :=
  Real.arccos (p.z / Real.sqrt (1 - p.y * p.y)) / (2 * Real.pi)

/-- Go `computeSphereSurface`: a sphere without a shader yields its fixed
material; with a shader, push `VInt 0`, `VReal u`, `VReal v` onto the
shared evaluator stack, swap in the closure's captured environment, run the
body, pop three reals (`kd`, `ks`, `n`; top of stack popped first is `n`)
and then a `Point`, and assemble the material (all fields not set by the Go
composite literal are zero).  The saved environment is restored on every
exit path (Go's `defer`). -/
noncomputable def computeSphereSurface (s : RSphere) (p : Vec3) (gst : GST)
    (fuel : ℕ) : Except SurfaceError RMaterial × GST :=
  match s.surfaceFn with
  | none => (.ok s.material, gst)
  | some fn =>
    match gst with
    | none => (.error .noEvalState, none)
    | some st =>
      let st1 := Gml.push (.vreal (sphereSurfaceV p))
        (Gml.push (.vreal (sphereSurfaceU p)) (Gml.push (.vint 0) st))
      let oldEnv := st1.env
      match Gml.evalT fuel fn.code { st1 with env := fn.env } with
      | (st2, some err) =>
        (.error (.evalError err), some { st2 with env := oldEnv })
      | (st2, none) =>
        match Gml.pop3 Gml.asVReal st2 with
        | (.error err, st3) =>
          (.error (.evalError err), some { st3 with env := oldEnv })
        | (.ok (kd, ks, n), st3) =>
          match Gml.popValue Gml.asPoint st3 with
          | (.error err, st4) =>
            (.error (.evalError err), some { st4 with env := oldEnv })
          | (.ok c, st4) =>
            (.ok { color := ⟨c.1, c.2.1, c.2.2⟩, reflectivity := 0,
                   fuzziness := 0, transparency := 0, refractiveIndex := 0,
                   kd := kd, ks := ks, specularExponent := n },
             some { st4 with env := oldEnv })

/-- Go `math.Sqrt` with IEEE semantics on the sign: the square root of a
negative number is NaN, modelled as `none`. -/
noncomputable def fsqrt (x : ℝ) : Option ℝ :=
  if x < 0 then none else some (Real.sqrt x)

/-- Go `Sphere.Intersect`.  `L = center − origin`, `t_ca = L·direction`; a
negative `t_ca` is a miss.  Go computes
`t_hc = math.Sqrt(radius² − (L·L − t_ca²))` with no sign check: when the
discriminant is negative, `t_hc` is NaN, `t0 = t_ca − NaN` is NaN, and
`t0 > 0.0` is false, so the function falls through to `return nil` — the
`none` branch of `fsqrt` renders exactly that path.  A hit is reported only
when the near root `t0 = t_ca − t_hc` is strictly positive (the far-root
code is commented out in the source), and a surface-shader failure turns
the hit into a miss (`return nil` after logging). -/
noncomputable def sphereIntersect (idx : ℕ) (s : RSphere) (ray : RRay)
    (gst : GST) (fuel : ℕ) : Option Hit × GST :=
  let L := subV s.center ray.origin
  let t_ca := dotV L ray.direction
  if t_ca < 0 then (none, gst)
  else
    match fsqrt (s.radius * s.radius - (dotV L L - t_ca * t_ca)) with
    | none => (none, gst)
    | some t_hc =>
      let t0 := t_ca - t_hc
      if 0 < t0 then
        let hitPoint := addV ray.origin (scaleV ray.direction t0)
        match computeSphereSurface s hitPoint gst fuel with
        | (.error _, gst') => (none, gst')
        | (.ok material, gst') =>
          (some { objIdx := idx, t := t0, point := hitPoint,
                  normal := normalizeV (subV hitPoint s.center),
                  material := material }, gst')
      else (none, gst)

/-- The loop of `closestHit`: scan the objects in order, keep the hit with
the strictly smallest `t` (first object wins ties), threading the shared
interpreter state through each `Intersect`. -/
noncomputable def closestHitAux (ray : RRay) (fuel : ℕ) :
    List RSphere → ℕ → Option Hit × GST → Option Hit × GST
  | [], _, acc => acc
  | s :: rest, idx, (minHit, gst) =>
    let r := sphereIntersect idx s ray gst fuel
    let newMin :=
      match r.1, minHit with
      | none, m => m
      | some h, none => some h
      | some h, some m => if h.t < m.t then some h else some m
    closestHitAux ray fuel rest (idx + 1) (newMin, r.2)

/-- Go `closestHit`. -/
noncomputable def closestHit (scene : Scene) (ray : RRay) (gst : GST)
    (fuel : ℕ) : Option Hit × GST :=
  closestHitAux ray fuel scene.objects 0 (none, gst)

/-- The loop of `inShadow`: skip the hit object itself; any other object
whose shadow-ray hit satisfies `t·‖ray.direction‖ < distToLight` occludes
the light, and the scan stops there. -/
noncomputable def inShadowAux (hit : Hit) (shadowRay : RRay) (ray : RRay)
    (distToLight : ℝ) (fuel : ℕ) :
    List RSphere → ℕ → GST → Bool × GST
  | [], _, gst => (false, gst)
  | s :: rest, idx, gst =>
    if idx = hit.objIdx then
      inShadowAux hit shadowRay ray distToLight fuel rest (idx + 1) gst
    else
      let r := sphereIntersect idx s shadowRay gst fuel
      match r.1 with
      | none => inShadowAux hit shadowRay ray distToLight fuel rest (idx + 1) r.2
      | some sh =>
        if sh.t * lengthV ray.direction < distToLight then (true, r.2)
        else inShadowAux hit shadowRay ray distToLight fuel rest (idx + 1) r.2

/-- Go `inShadow`: offset the origin by `normal · 1e-4` and scan. -/
noncomputable def inShadow (hit : Hit) (scene : Scene) (lightDir : Vec3)
    (distToLight : ℝ) (ray : RRay) (gst : GST) (fuel : ℕ) : Bool × GST :=
  inShadowAux hit ⟨addV hit.point (scaleV hit.normal 1e-4), lightDir⟩ ray
    distToLight fuel scene.objects 0 gst

/-- The per-light loop of `computeLighting`: a shadowed light contributes
nothing; otherwise add the diffuse term and the Blinn–Phong specular
term. -/
noncomputable def computeLightingAux (hit : Hit) (scene : Scene) (ray : RRay)
    (v : Vec3) (fuel : ℕ) : List RLight → Vec3 × GST → Vec3 × GST
  | [], acc => acc
  | light :: rest, (result, gst) =>
    let mat := hit.material
    let lightToHit := subV light.position hit.point
    let distToLight := lengthV lightToHit
    let lightDir := normalizeV lightToHit
    let r := inShadow hit scene lightDir distToLight ray gst fuel
    if r.1 then computeLightingAux hit scene ray v fuel rest (result, r.2)
    else
      let diff := max 0 (dotV hit.normal lightDir) * mat.kd
      let diffuse := scaleV (mulV mat.color light.color) diff
      let bH := normalizeV (addV v lightDir)
      let spec := max 0 (dotV hit.normal bH)
      let specular := scaleV light.color (mat.ks * spec ^ mat.specularExponent)
      computeLightingAux hit scene ray v fuel rest
        (addV (addV result diffuse) specular, r.2)

/-- Go `computeLighting`: ambient term `materialColor · ambientLight · kd`,
plus the per-light contributions. -/
noncomputable def computeLighting (hit : Hit) (scene : Scene) (ray : RRay)
    (gst : GST) (fuel : ℕ) : Vec3 × GST :=
  let v := negV ray.direction
  let mat := hit.material
  computeLightingAux hit scene ray v fuel scene.lights
    (scaleV (mulV mat.color scene.ambientLight) mat.kd, gst)

/-- Go `refract`: Snell's law with the total-internal-reflection check
(`sin²T > 1` yields no transmitted ray). -/
noncomputable def refract (incident normal : Vec3) (n1 n2 : ℝ) : Option Vec3 :=
  let ratio := n1 / n2
  let cosI := -dotV normal incident
  let sinT2 := ratio * ratio * (1 - cosI * cosI)
  if 1 < sinT2 then none
  else
    let cosT := Real.sqrt (1 - sinT2)
    some (addV (scaleV incident ratio) (scaleV normal (ratio * cosI - cosT)))

/-- Go `fresnel`: Schlick's approximation, assuming the ray comes from air. -/
noncomputable def fresnel (normal incident : Vec3) (ior : ℝ) : ℝ :=
  let cosi := cosineSimilarityV incident normal
  let etai := (1 : ℝ)
  let etat := ior
  let r0 := (etai - etat) / (etai + etat)
  let r02 := r0 * r0
  let cost := |cosi|
  r02 + (1 - r02) * (1 - cost) ^ (5 : ℝ)

/-- Go `traceRay`.  Depth 0 is the recursion limit and returns black.  A miss
computes the background gradient — and, because Go's
`scene.BgColorStart.LerpI(&scene.BgColorEnd, t)` has a pointer receiver
into the scene, writes the interpolated color back into
`scene.BgColorStart`; the possibly-updated scene is therefore threaded
through and out of every call.  A hit shades, and an opaque non-reflective
material returns the clamped shaded color without recursion; otherwise the
reflection and refraction legs recurse at `depth − 1` and the three terms
are blended with the Fresnel coefficient and clamped.  `fuel` bounds the
GML surface-shader evaluations only. -/
noncomputable def traceRay (fuel : ℕ) :
    ℕ → Scene → RRay → GST → Vec3 × Scene × GST
  | 0, scene, _, gst => (⟨0, 0, 0⟩, scene, gst)
  | depth + 1, scene, ray, gst =>
    match closestHit scene ray gst fuel with
    | (none, gst1) =>
      let t := 0.5 * (ray.direction.y + 1)
      let bg := lerpV scene.bgColorStart scene.bgColorEnd t
      (bg, { scene with bgColorStart := bg }, gst1)
    | (some hit, gst1) =>
      let res := computeLighting hit scene ray gst1 fuel
      let surfaceColor := res.1
      let gst2 := res.2
      let mat := hit.material
      if mat.reflectivity = 0 ∧ mat.transparency = 0 then
        (clampV surfaceColor, scene, gst2)
      else
        let refl :=
          if 0 < mat.reflectivity then
            let fuzz := mat.fuzziness
            let reflectedDir := subV ray.direction
              (scaleV hit.normal (2 * dotV ray.direction hit.normal))
            let randomVector : Vec3 :=
              ⟨Real.cos fuzz * Real.cos fuzz, Real.sin fuzz * Real.sin fuzz, 0⟩
            let reflectionRay : RRay :=
              ⟨addV hit.point (scaleV hit.normal 1e-4),
               normalizeV (addV reflectedDir (scaleV randomVector fuzz))⟩
            traceRay fuel depth scene reflectionRay gst2
          else (⟨0, 0, 0⟩, scene, gst2)
        let refr :=
          if 0 < mat.transparency then
            let flip := 0 < dotV ray.direction hit.normal
            let n1 := if flip then mat.refractiveIndex else 1
            let n2 := if flip then 1 else mat.refractiveIndex
            let normal := if flip then scaleV hit.normal (-1) else hit.normal
            match refract ray.direction normal n1 n2 with
            | none => (⟨0, 0, 0⟩, refl.2.1, refl.2.2)
            | some refractedDir =>
              traceRay fuel depth refl.2.1
                ⟨subV hit.point (scaleV normal 1e-4), refractedDir⟩ refl.2.2
          else (⟨0, 0, 0⟩, refl.2.1, refl.2.2)
        let kr := fresnel hit.normal ray.direction mat.refractiveIndex
        (clampV (addV (scaleV surfaceColor (1 - mat.transparency))
          (addV (scaleV refl.1 kr) (scaleV refr.1 (1 - kr)))),
         refr.2.1, refr.2.2)

/-- The recursion-limit computation at the top of `Render`: a non-positive
`RecursionDepth` is replaced by the default 3. -/
def renderRecursionLimit (scene : Scene) : ℤ :=
  if scene.recursionDepth ≤ 0 then 3 else scene.recursionDepth

/-- The field-of-view normalization at the top of `Render`: `Render`
WRITES `scene.Fov = 90` through its `*Scene` argument when the field of
view is not positive, so the scene the pixel loop (and the caller) sees is
the returned one. -/
noncomputable def renderNormalizeFov (scene : Scene) : Scene :=
  if scene.fov ≤ 0 then { scene with fov := 90 } else scene

/-- Equality of every `Scene` field except `bgColorStart` — the frame
`traceRay` provably preserves. -/
def sceneFrameEq (s s' : Scene) : Prop :=
  s'.widthPx = s.widthPx ∧ s'.heightPx = s.heightPx ∧ s'.fov = s.fov ∧
  s'.recursionDepth = s.recursionDepth ∧ s'.objects = s.objects ∧
  s'.lights = s.lights ∧ s'.ambientLight = s.ambientLight ∧
  s'.bgColorEnd = s.bgColorEnd

end Rt

namespace Rt

/-- The term Go calls `t_ca` in `Sphere.Intersect`:
`L · direction` for `L = center − origin`. -/
noncomputable def sphereTca (s : RSphere) (ray : RRay) : ℝ :=
  dotV (subV s.center ray.origin) ray.direction

/-- The discriminant handed to `math.Sqrt` in `Sphere.Intersect`:
`radius² − (L·L − t_ca²)`. -/
noncomputable def sphereDisc (s : RSphere) (ray : RRay) : ℝ :=
  s.radius * s.radius -
    (dotV (subV s.center ray.origin) (subV s.center ray.origin) -
      sphereTca s ray * sphereTca s ray)

end Rt

namespace Gml

/-- Go `NewEvalState`: empty stack, empty environment, no render callback. -/
def newEvalState : EvalState :=
  { stack := [], env := [], renderSink := false, rendered := [] }

/-- Fixture: a scene-object value (a sphere of radius 1). -/
def uS1 : Value := .vsphere 0 0 0 1 [] []

/-- Fixture: a second, distinct scene-object value (radius 2). -/
def uS2 : Value := .vsphere 0 0 0 2 [] []

/-- Fixture: a state whose top two stack values are the scene objects
`uS1` (below) and `uS2` (on top). -/
def uState : EvalState :=
  { stack := [uS1, uS2], env := [], renderSink := false, rendered := [] }

/-- Fixture: a state with a closure on top of the stack whose body fails
(unbound identifier), over a nonempty environment. -/
def c2State : EvalState :=
  { stack := [.vclosure [.identifier "nosuch"] []],
    env := [("y", .vint 7)], renderSink := false, rendered := [] }

/-- Fixture: the state reached in the part-`apply` test
`1 { /x x x } apply addi` just before `apply` runs: the integer 1 and the
closure `{ /x x x }` (captured empty environment) are on the stack. -/
def c9State : EvalState :=
  { stack := [.vint 1, .vclosure [.binder "x", .identifier "x", .identifier "x"] []],
    env := [], renderSink := false, rendered := [] }

/-- Fixture: a stack whose top is a `VInt` and whose second value is a
`VBool` (not a `VInt`). -/
def c10State : EvalState :=
  { stack := [.vbool true, .vint 1], env := [], renderSink := false, rendered := [] }

/-- The token program `1 [ 2 3 ] 4` from the claim about array
evaluation. -/
def gmlArrayProg : List TokenGroup :=
  [.intLit 1, .array [.intLit 2, .intLit 3], .intLit 4]

/-- Fixture: outer state for the array-evaluation witness (the stack
already holds the 1). -/
def c3Outer : EvalState :=
  { stack := [.vint 1], env := [], renderSink := false, rendered := [] }

/-- Fixture: the state produced by evaluating the array elements `2 3` on a
fresh stack. -/
def c3Inner : EvalState :=
  { stack := [.vint 2, .vint 3], env := [], renderSink := false, rendered := [] }

/-- The token program `1 /x { x } /f 2 /x f apply x addi` (the `rebind`
test of the evaluator's own test file). -/
def gmlRebindProg : List TokenGroup :=
  [.intLit 1, .binder "x", .function [.identifier "x"], .binder "f",
   .intLit 2, .binder "x", .identifier "f", .identifier "apply",
   .identifier "x", .identifier "addi"]

end Gml

namespace Rt

/-- Fixture: the all-zero material (the Go zero value of `Material`). -/
def matZero : RMaterial :=
  { color := ⟨0, 0, 0⟩, reflectivity := 0, fuzziness := 0, transparency := 0,
    refractiveIndex := 0, kd := 0, ks := 0, specularExponent := 0 }

/-- Fixture: a unit sphere at the origin with a fixed material. -/
def c6Sphere : RSphere :=
  { center := ⟨0, 0, 0⟩, radius := 1, material := matZero, surfaceFn := none }

/-- Fixture: a ray whose `t_ca` is zero and whose discriminant against
`c6Sphere` is −8 (a clean geometric miss). -/
def c6Ray : RRay := ⟨⟨0, 0, 3⟩, ⟨1, 0, 0⟩⟩

/-- Fixture: a perfectly reflective, fuzz-free, opaque material. -/
def c7Mat : RMaterial :=
  { color := ⟨1, 1, 1⟩, reflectivity := 1, fuzziness := 0, transparency := 0,
    refractiveIndex := 3, kd := 1, ks := 0, specularExponent := 1 }

/-- Fixture: a reflective unit sphere centered at (0,0,5). -/
def c7Sphere : RSphere :=
  { center := ⟨0, 0, 5⟩, radius := 1, material := c7Mat, surfaceFn := none }

/-- Fixture: a scene with recursion depth 0, one reflective sphere, no
lights, black ambient light, and a constant white background. -/
def c7Scene : Scene :=
  { widthPx := 100, heightPx := 100, fov := 90, recursionDepth := 0,
    objects := [c7Sphere], lights := [], ambientLight := ⟨0, 0, 0⟩,
    bgColorStart := ⟨1, 1, 1⟩, bgColorEnd := ⟨1, 1, 1⟩ }

/-- Fixture: the axial camera ray hitting `c7Sphere` head on. -/
def c7Ray : RRay := ⟨⟨0, 0, 0⟩, ⟨0, 0, 1⟩⟩

/-- Fixture: the hit `c7Ray` produces on `c7Sphere`: near root `t₀ = 4`,
point (0,0,4), unit normal (0,0,−1). -/
def c7Hit : Hit :=
  { objIdx := 0, t := 4, point := ⟨0, 0, 4⟩, normal := ⟨0, 0, -1⟩, material := c7Mat }

/-- Fixture: the reflection ray spawned at the `c7Hit` point (origin offset
by the 1e−4 epsilon along the normal, direction mirrored back toward the
camera). -/
def c7ReflRay : RRay := ⟨⟨0, 0, 4 - 1e-4⟩, ⟨0, 0, -1⟩⟩

/-- Fixture: a scene with `Fov = 0` (so `Render` rewrites it), no objects,
and a black-to-white background gradient. -/
def c5Scene : Scene :=
  { widthPx := 1, heightPx := 1, fov := 0, recursionDepth := 1,
    objects := [], lights := [], ambientLight := ⟨0, 0, 0⟩,
    bgColorStart := ⟨0, 0, 0⟩, bgColorEnd := ⟨1, 1, 1⟩ }

/-- Fixture: an upward ray (background parameter `t = 1`). -/
def c5Ray : RRay := ⟨⟨0, 0, 0⟩, ⟨0, 1, 0⟩⟩

/-- Fixture: `c5Scene` with a positive field of view. -/
def c5PosScene : Scene := { c5Scene with fov := 90 }

/-- Fixture: a surface-shader body that binds the three pushed inputs
(`/v /u /face`), builds a color `Point(1,1,1)`, and pushes the three
shading reals `kd = 1`, `ks = 2`, `n = 3` — leaving exactly four values. -/
def c8Body : List Gml.TokenGroup :=
  [.binder "v", .binder "u", .binder "face",
   .floatLit 1, .floatLit 1, .floatLit 1, .identifier "point",
   .floatLit 1, .floatLit 2, .floatLit 3]

/-- Fixture: a unit sphere carrying the `c8Body` shader with an empty
captured environment. -/
def c8Sphere : RSphere :=
  { center := ⟨0, 0, 0⟩, radius := 1, material := matZero,
    surfaceFn := some ⟨c8Body, []⟩ }

/-- Fixture: the surface point handed to the shader. -/
def c8Point : Vec3 := ⟨0, 0, 0⟩

/-- Fixture: the evaluator state after running `c8Body` on the prepared
stack: four result values on the stack, the three inputs bound in the
environment. -/
noncomputable def c8PostBody : Gml.EvalState :=
  { stack := [.vpoint 1 1 1, .vreal 1, .vreal 2, .vreal 3],
    env := [("face", .vint 0), ("u", .vreal (sphereSurfaceU c8Point)),
            ("v", .vreal (sphereSurfaceV c8Point))],
    renderSink := true, rendered := [] }

/-- Fixture: the material the `c8Body` shader assembles. -/
noncomputable def c8Result : RMaterial :=
  { color := ⟨1, 1, 1⟩, reflectivity := 0, fuzziness := 0, transparency := 0,
    refractiveIndex := 0, kd := 1, ks := 2, specularExponent := 3 }

end Rt

namespace Gml

/-- C1 (amended): for every evaluator state whose top two stack values are
SceneObjects, the `union` builtin pops both and pushes a single Union of
exactly those two objects in which the first-popped object (the one that
was on top of the stack) is the FIRST child and the second-popped object is
the SECOND child — i.e. the children appear in pop order, reversing the
left-to-right order in which the operands were written. -/
theorem c1_union_child_order (e : EvalState) (rest : List Value) (a b : Value)
    (ha : asSceneObject a = some a) (hb : asSceneObject b = some b)
    (hs : e.stack = rest ++ [b, a]) :
    union e = ({ e with stack := rest ++ [Value.vunion [a, b]] }, none) := by
  have h1 : e.stack = (rest ++ [b]) ++ [a] := by rw [hs]; simp
  simp only [union, popValue, pop, h1, List.getLast?_concat,
    List.dropLast_concat, ha, hb, push]

/-- Witness for C1's amended theorem at a concrete state: popping the top
sphere `uS2` and then `uS1` pushes `Union{uS2, uS1}`. -/
theorem c1_union_child_order_witness :
    asSceneObject uS1 = some uS1 ∧ asSceneObject uS2 = some uS2 ∧
    union uState = ({ uState with stack := [Value.vunion [uS2, uS1]] }, none) :=
  ⟨rfl, rfl, c1_union_child_order uState [] uS2 uS1 rfl rfl rfl⟩

/-- Counterexample to C1 as stated: on the stack `[uS1, uS2]` (top `uS2`),
`union` produces `Union{uS2, uS1}` — the first-popped object is the FIRST
child — and that value differs from the `Union{uS1, uS2}` the claim
predicts (the spheres have different radii). -/
theorem c1_union_child_order_counterexample :
    union uState = ({ uState with stack := [Value.vunion [uS2, uS1]] }, none) ∧
    Value.vunion [uS2, uS1] ≠ Value.vunion [uS1, uS2] := by
  refine ⟨rfl, ?_⟩
  intro h
  simp only [uS1, uS2, Value.vunion.injEq, List.cons.injEq,
    Value.vsphere.injEq, and_true] at h
  norm_num at h

/-- C2: for every evaluator state with a Closure on top of the stack, after
the `apply` builtin returns — whatever the closure body did, succeed or
fail, whatever evaluation function runs it — the current environment equals
the environment in effect immediately before `apply` began (the saved
environment is restored unconditionally, as by Go's `defer`). -/
theorem c2_apply_restores_env
    (evalF : List TokenGroup → EvalState → EvalState × Option EvalError)
    (e : EvalState) (rest : List Value) (code : List TokenGroup)
    (cenv : List (String × Value))
    (hs : e.stack = rest ++ [.vclosure code cenv]) :
    ((apply evalF e).1).env = e.env := by
  simp only [apply, popValue, pop, hs, List.getLast?_concat,
    List.dropLast_concat, asVClosure]

/-- Witness for C2 at a concrete state whose closure body FAILS with an
unbound identifier: the environment is still restored exactly. -/
theorem c2_apply_restores_env_witness :
    ((apply (evalT 5) c2State).1).env = c2State.env :=
  c2_apply_restores_env (evalT 5) c2State [] [.identifier "nosuch"] [] rfl

/-- C3: evaluating an Array token-group runs its element token-groups on a
fresh, empty stack and then pushes exactly one Array value holding the
accumulated elements, in order, onto the saved outer stack (first
conjunct); and the program `1 [ 2 3 ] 4` evaluated from a fresh state ends
with the stack `[VInt 1, VArray [VInt 2, VInt 3], VInt 4]` (second
conjunct; the list is written bottom-to-top exactly as the Go slice). -/
theorem c3_array_fresh_stack (fuel : ℕ) (elems rest : List TokenGroup)
    (e e' : EvalState)
    (h : evalT fuel elems { e with stack := [] } = (e', none)) :
    evalT (fuel + 1) (.array elems :: rest) e =
      evalT fuel rest { e' with stack := e.stack ++ [.varray e'.stack] } ∧
    evalT 10 gmlArrayProg newEvalState =
      ({ newEvalState with
          stack := [.vint 1, .varray [.vint 2, .vint 3], .vint 4] }, none) := by
  refine ⟨?_, rfl⟩
  simp only [evalT, h]

/-- Witness for C3 at a concrete state: with `1` already on the outer
stack, the array `[ 2 3 ]` evaluates its elements on a fresh stack and
pushes the single array value onto the outer stack. -/
theorem c3_array_fresh_stack_witness :
    evalT 6 [TokenGroup.array [.intLit 2, .intLit 3]] c3Outer =
      evalT 5 [] { c3Inner with stack := c3Outer.stack ++ [.varray c3Inner.stack] } :=
  (c3_array_fresh_stack 5 [.intLit 2, .intLit 3] [] c3Outer c3Inner rfl).1

/-- C4: the program `1 /x { x } /f 2 /x f apply x addi` evaluated from a
fresh evaluator state succeeds and leaves `VInt 3` as the whole stack (in
particular on top): the closure sees its definition-time snapshot `x = 1`,
the later rebinding to 2 does not affect it, and the final `x` lookup sees
2, giving 1 + 2 = 3. -/
theorem c4_closure_capture_program :
    (evalT 20 gmlRebindProg newEvalState).2 = none ∧
    (evalT 20 gmlRebindProg newEvalState).1.stack = [.vint 3] :=
  ⟨rfl, rfl⟩

/-- C9: the `apply` builtin swaps only the environment, never the stack:
with a closure on top of the caller's stack, `apply` equals running the
body directly on the caller's remaining stack (operands below the closure
are visible to the body) under the captured environment, and the state the
body produces is returned as-is except that the caller's environment is
restored — no stack save-and-restore occurs. -/
theorem c9_apply_shares_stack
    (evalF : List TokenGroup → EvalState → EvalState × Option EvalError)
    (e : EvalState) (rest : List Value) (code : List TokenGroup)
    (cenv : List (String × Value))
    (hs : e.stack = rest ++ [.vclosure code cenv]) :
    apply evalF e =
      ({ (evalF code { e with stack := rest, env := cenv }).1 with env := e.env },
       (evalF code { e with stack := rest, env := cenv }).2) := by
  simp only [apply, popValue, pop, hs, List.getLast?_concat,
    List.dropLast_concat, asVClosure]

/-- Witness for C9 on the test program's call `1 { /x x x } apply`: the
body pops the caller's `1`, rebinds it, and pushes it twice; the caller's
stack afterwards is `[1, 1]`. -/
theorem c9_apply_shares_stack_witness :
    apply (evalT 5) c9State =
      ({ stack := [.vint 1, .vint 1], env := [], renderSink := false,
         rendered := [] }, none) :=
  c9_apply_shares_stack (evalT 5) c9State [.vint 1]
    [.binder "x", .identifier "x", .identifier "x"] [] rfl

/-- C10 (amended): builtins are not atomic on failure — operands already
popped are not pushed back.  For a state whose top is a `VInt`: if there is
no second value, `addi` fails with the empty-stack error and the stack has
lost the top operand (shorter by ONE); if the second value is present but
not a `VInt`, `addi` fails with the type-mismatch error and has popped BOTH
values (shorter by TWO — the offending operand is popped before the type
assertion fails). -/
theorem c10_addi_failure_modes (e : EvalState) (n : ℤ) :
    (e.stack = [.vint n] → addi e = ({ e with stack := [] }, some .emptyStack)) ∧
    (∀ rest v, asVInt v = none → e.stack = rest ++ [v, .vint n] →
      addi e = ({ e with stack := rest }, some .typeMismatch)) := by
  constructor
  · intro hs
    simp only [addi, popValue, pop, hs, List.getLast?_concat,
      List.dropLast_concat, asVInt]
    simp [List.getLast?]
  · intro rest v hv hs
    have h1 : e.stack = (rest ++ [v]) ++ [.vint n] := by rw [hs]; simp
    simp only [addi, popValue, pop, h1, List.getLast?_concat,
      List.dropLast_concat, hv,
      show ∀ m : ℤ, asVInt (.vint m) = some m from fun _ => rfl]

/-- Witness for C10's amended theorem at the stack `[VBool true, VInt 1]`:
the type-mismatch mode fires and both operands are gone. -/
theorem c10_addi_failure_modes_witness :
    addi c10State = ({ c10State with stack := [] }, some .typeMismatch) :=
  (c10_addi_failure_modes c10State 1).2 [] (.vbool true) rfl rfl

/-- Counterexample to C10 as stated: on the stack `[VBool true, VInt 1]`
(length 2, top a `VInt`, second not a `VInt`), `addi` fails with a
type-mismatch but the resulting stack is empty — length 0, not the
length 1 the claim's "shorter by one" predicts. -/
theorem c10_addi_loss_counterexample :
    addi c10State = ({ c10State with stack := [] }, some .typeMismatch) ∧
    c10State.stack.length = 2 ∧
    (({ c10State with stack := [] } : EvalState)).stack.length ≠
      c10State.stack.length - 1 :=
  ⟨rfl, rfl, by decide⟩

end Gml

namespace Rt

/-- Reflexivity of the scene frame relation. -/
theorem sceneFrameEq_refl (s : Scene) : sceneFrameEq s s :=
  ⟨rfl, rfl, rfl, rfl, rfl, rfl, rfl, rfl⟩

/-- Transitivity of the scene frame relation. -/
theorem sceneFrameEq_trans {a b c : Scene} (h1 : sceneFrameEq a b)
    (h2 : sceneFrameEq b c) : sceneFrameEq a c := by
  obtain ⟨x1, x2, x3, x4, x5, x6, x7, x8⟩ := h1
  obtain ⟨y1, y2, y3, y4, y5, y6, y7, y8⟩ := h2
  exact ⟨y1.trans x1, y2.trans x2, y3.trans x3, y4.trans x4, y5.trans x5,
    y6.trans x6, y7.trans x7, y8.trans x8⟩

/-- Rewriting only `bgColorStart` respects the scene frame relation. -/
theorem sceneFrameEq_bg (s : Scene) (v : Vec3) :
    sceneFrameEq s { s with bgColorStart := v } :=
  ⟨rfl, rfl, rfl, rfl, rfl, rfl, rfl, rfl⟩

/-- Frame property of `traceRay`: at every depth and for every ray, the
scene it returns agrees with the input scene on every field except
`bgColorStart` (the only scene field the Go code writes, through `LerpI`'s
pointer receiver in the miss branch). -/
theorem traceRay_frame (fuel : ℕ) :
    ∀ (d : ℕ) (scene : Scene) (ray : RRay) (gst : GST),
    sceneFrameEq scene (traceRay fuel d scene ray gst).2.1 := by
  intro d
  induction d with
  | zero =>
    intro scene ray gst
    exact sceneFrameEq_refl scene
  | succ d ih =>
    intro scene ray gst
    rw [traceRay.eq_2]
    split
    · exact sceneFrameEq_bg scene _
    · dsimp only
      repeat
        first
        | exact sceneFrameEq_refl _
        | exact sceneFrameEq_bg _ _
        | exact ih _ _ _
        | exact sceneFrameEq_trans (ih _ _ _) (ih _ _ _)
        | exact sceneFrameEq_trans (sceneFrameEq_refl _) (ih _ _ _)
        | split

/-- The camera ray of the C7 scene hits its sphere at `t₀ = 4` with unit
normal (0,0,−1); the shared interpreter state is untouched. -/
theorem c7SphereHit : sphereIntersect 0 c7Sphere c7Ray none 1 = (some c7Hit, none) := by
  norm_num [sphereIntersect, fsqrt, subV, dotV, addV, scaleV, normalizeV, lengthV,
    computeSphereSurface, c7Sphere, c7Ray, c7Mat, c7Hit, Real.sqrt_one]

/-- Closest-hit selection on the C7 scene returns that hit. -/
theorem c7ClosestHit : closestHit c7Scene c7Ray none 1 = (some c7Hit, none) := by
  simp [closestHit, closestHitAux, c7Scene, c7SphereHit]

/-- With no lights and black ambient light, shading the C7 hit gives
black. -/
theorem c7Lighting : computeLighting c7Hit c7Scene c7Ray none 1 = (⟨0, 0, 0⟩, none) := by
  norm_num [computeLighting, computeLightingAux, mulV, scaleV, negV, c7Scene, c7Hit, c7Mat]

/-- Clamping black is black. -/
theorem c7ClampZero : clampV (⟨0, 0, 0⟩ : Vec3) = ⟨0, 0, 0⟩ := by
  norm_num [clampV, clamp]

/-- The C7 reflection ray misses the sphere (its `t_ca` is negative). -/
theorem c7ReflMiss : sphereIntersect 0 c7Sphere c7ReflRay none 1 = (none, none) := by
  norm_num [sphereIntersect, subV, dotV, c7Sphere, c7ReflRay]

/-- Closest-hit selection for the C7 reflection ray reports a miss. -/
theorem c7ReflClosestMiss : closestHit c7Scene c7ReflRay none 1 = (none, none) := by
  simp [closestHit, closestHitAux, c7Scene, c7ReflMiss]

/-- Tracing the C7 reflection ray returns the constant white background
(and, the two gradient endpoints being equal, the written-back
`bgColorStart` leaves the scene unchanged). -/
theorem c7ReflTrace : traceRay 1 (1 + 1) c7Scene c7ReflRay none = (⟨1, 1, 1⟩, c7Scene, none) := by
  simp only [traceRay, c7ReflClosestMiss]
  norm_num [lerpV, c7Scene, c7ReflRay]

/-- Numeral form of `c7ReflTrace` for rewriting. -/
theorem c7ReflTrace2 : traceRay 1 2 c7Scene c7ReflRay none = (⟨1, 1, 1⟩, c7Scene, none) :=
  c7ReflTrace

/-- Full trace of the C7 camera ray at the default depth 3: the Fresnel
coefficient is 1/4, the reflected background contributes (1/4,1/4,1/4),
and the direct term is black. -/
theorem c7MainTrace : traceRay 1 (2 + 1) c7Scene c7Ray none = (⟨1/4, 1/4, 1/4⟩, c7Scene, none) := by
  rw [traceRay.eq_2, c7ClosestHit]
  simp only [c7Lighting]
  have hray : ({ origin := addV c7Hit.point (scaleV c7Hit.normal 1e-4),
                 direction := normalizeV (addV (subV c7Ray.direction
                     (scaleV c7Hit.normal (2 * dotV c7Ray.direction c7Hit.normal)))
                   (scaleV { x := Real.cos c7Hit.material.fuzziness *
                                    Real.cos c7Hit.material.fuzziness,
                             y := Real.sin c7Hit.material.fuzziness *
                                    Real.sin c7Hit.material.fuzziness,
                             z := 0 } c7Hit.material.fuzziness)) } : RRay) = c7ReflRay := by
    norm_num [c7Hit, c7Mat, c7Ray, addV, subV, scaleV, normalizeV, lengthV, dotV, c7ReflRay,
      Real.cos_zero, Real.sin_zero, Real.sqrt_one]
  rw [hray, c7ReflTrace2]
  norm_num [c7Hit, c7Mat, c7Ray, fresnel, cosineSimilarityV, dotV, lengthV, negV, addV,
    scaleV, mulV, clampV, clamp, Real.sqrt_one, abs_neg, abs_one, Real.zero_rpow]

/-- C5 (amended): `Render` leaves the scene unchanged whenever its field of
view is positive, and otherwise rewrites exactly the `Fov` field to the
default 90; `traceRay` (with everything it calls) modifies no scene field
other than `bgColorStart`, which its miss branch overwrites in place. -/
theorem c5_scene_mutation_frame (fuel : ℕ) (scene : Scene) :
    (0 < scene.fov → renderNormalizeFov scene = scene) ∧
    (scene.fov ≤ 0 → renderNormalizeFov scene = { scene with fov := 90 }) ∧
    ∀ d ray gst, sceneFrameEq scene (traceRay fuel d scene ray gst).2.1 := by
  refine ⟨?_, ?_, fun d ray gst => traceRay_frame fuel d scene ray gst⟩
  · intro h
    rw [renderNormalizeFov, if_neg (not_le.mpr h)]
  · intro h
    rw [renderNormalizeFov, if_pos h]

/-- Witness for C5's amended theorem: a scene with `Fov = 90` passes
through `Render`'s normalization unchanged, and a depth-1 trace preserves
its frame. -/
theorem c5_scene_mutation_frame_witness :
    renderNormalizeFov c5PosScene = c5PosScene ∧
    sceneFrameEq c5PosScene (traceRay 1 1 c5PosScene c5Ray none).2.1 :=
  ⟨(c5_scene_mutation_frame 1 c5PosScene).1 (by norm_num [c5PosScene, c5Scene]),
   (c5_scene_mutation_frame 1 c5PosScene).2.2 1 c5Ray none⟩

/-- Counterexample to C5 as stated: the scene is NOT read-only during
rendering.  `Render` rewrites `Fov` from 0 to 90, and one missed ray
rewrites `bgColorStart` from black to white (the in-place `LerpI`). -/
theorem c5_scene_not_readonly_counterexample :
    (renderNormalizeFov c5Scene).fov = 90 ∧ c5Scene.fov = 0 ∧
    renderNormalizeFov c5Scene ≠ c5Scene ∧
    (traceRay 1 1 c5Scene c5Ray none).2.1.bgColorStart = ⟨1, 1, 1⟩ ∧
    c5Scene.bgColorStart = ⟨0, 0, 0⟩ ∧
    (traceRay 1 1 c5Scene c5Ray none).2.1.bgColorStart ≠ c5Scene.bgColorStart := by
  have hch : closestHit c5Scene c5Ray none 1 = (none, none) := by
    simp [closestHit, closestHitAux, c5Scene]
  have ht : traceRay 1 1 c5Scene c5Ray none =
      (⟨1, 1, 1⟩, { c5Scene with bgColorStart := ⟨1, 1, 1⟩ }, none) := by
    rw [show (1 : ℕ) = 0 + 1 from rfl, traceRay.eq_2, hch]
    norm_num [lerpV, c5Scene, c5Ray]
  have hfov : (renderNormalizeFov c5Scene).fov = 90 := by
    norm_num [renderNormalizeFov, c5Scene]
  refine ⟨hfov, rfl, ?_, ?_, rfl, ?_⟩
  · intro h
    have h2 := congrArg Scene.fov h
    rw [hfov] at h2
    norm_num [c5Scene] at h2
  · rw [ht]
  · rw [ht]
    intro h
    have h2 := congrArg Vec3.x h
    norm_num [c5Scene] at h2

end Rt

namespace Rt

/-- C6: for every sphere and ray (and interpreter state and fuel): when
`t_ca ≥ 0` and the discriminant `radius² − (L·L − t_ca²)` is negative,
`Sphere.Intersect` reports a clean miss — no hit, no error, the state
untouched, hence no NaN parameter/point/normal can reach a caller (Go's
`math.Sqrt` NaN and the false `NaN > 0` comparison are the `none` branch of
`fsqrt`); and in every case a hit is reported only when the near root
`t₀ = t_ca − √discriminant` is strictly positive — every hit carries
exactly that `t₀` (the far root `t_ca + √discriminant` appears nowhere in
the function, its code being commented out). -/
theorem c6_sphere_intersect_miss (idx : ℕ) (s : RSphere) (ray : RRay)
    (gst : GST) (fuel : ℕ) :
    (0 ≤ sphereTca s ray → sphereDisc s ray < 0 →
      sphereIntersect idx s ray gst fuel = (none, gst)) ∧
    (∀ h gst', sphereIntersect idx s ray gst fuel = (some h, gst') →
      0 ≤ sphereDisc s ray ∧
      h.t = sphereTca s ray - Real.sqrt (sphereDisc s ray) ∧ 0 < h.t) := by
  constructor
  · intro htca hdisc
    rw [sphereIntersect]
    rw [if_neg (by rw [sphereTca] at htca; exact not_lt.mpr htca)]
    rw [show fsqrt (s.radius * s.radius -
        (dotV (subV s.center ray.origin) (subV s.center ray.origin) -
          dotV (subV s.center ray.origin) ray.direction *
          dotV (subV s.center ray.origin) ray.direction)) = none from by
      rw [fsqrt, if_pos]
      rw [sphereDisc, sphereTca] at hdisc
      exact hdisc]
  · intro h gst' hres
    rw [sphereIntersect] at hres
    by_cases h1 : dotV (subV s.center ray.origin) ray.direction < 0
    · rw [if_pos h1] at hres
      exact absurd hres (by simp)
    · rw [if_neg h1] at hres
      rw [fsqrt] at hres
      by_cases h2 : s.radius * s.radius -
          (dotV (subV s.center ray.origin) (subV s.center ray.origin) -
            dotV (subV s.center ray.origin) ray.direction *
            dotV (subV s.center ray.origin) ray.direction) < 0
      · rw [if_pos h2] at hres
        exact absurd hres (by simp)
      · rw [if_neg h2] at hres
        simp only at hres
        by_cases h3 : 0 < dotV (subV s.center ray.origin) ray.direction -
            Real.sqrt (s.radius * s.radius -
              (dotV (subV s.center ray.origin) (subV s.center ray.origin) -
                dotV (subV s.center ray.origin) ray.direction *
                dotV (subV s.center ray.origin) ray.direction))
        · rw [if_pos h3] at hres
          refine ⟨by rw [sphereDisc, sphereTca]; exact not_lt.mp h2, ?_, ?_⟩
          · rcases hcs : computeSphereSurface s _ gst fuel with ⟨cr, cg⟩
            rw [hcs] at hres
            cases cr with
            | error e => simp at hres
            | ok m =>
              simp only at hres
              have hh := congrArg Prod.fst hres
              simp only [Option.some.injEq] at hh
              rw [← hh]
              simp [sphereDisc, sphereTca]
          · rcases hcs : computeSphereSurface s _ gst fuel with ⟨cr, cg⟩
            rw [hcs] at hres
            cases cr with
            | error e => simp at hres
            | ok m =>
              simp only at hres
              have hh := congrArg Prod.fst hres
              simp only [Option.some.injEq] at hh
              rw [← hh]
              exact h3
        · rw [if_neg h3] at hres
          exact absurd hres (by simp)

/-- Witness for C6 at a concrete grazing-miss input: `t_ca = 0` and
discriminant −8 give a clean miss with the interpreter state untouched. -/
theorem c6_sphere_intersect_miss_witness :
    0 ≤ sphereTca c6Sphere c6Ray ∧ sphereDisc c6Sphere c6Ray < 0 ∧
    sphereIntersect 0 c6Sphere c6Ray none 1 = (none, none) := by
  have h1 : sphereTca c6Sphere c6Ray = 0 := by
    simp [sphereTca, dotV, subV, c6Sphere, c6Ray]
  have h2 : sphereDisc c6Sphere c6Ray = -8 := by
    simp [sphereDisc, sphereTca, dotV, subV, c6Sphere, c6Ray]
    norm_num
  exact ⟨le_of_eq h1.symm, by rw [h2]; norm_num,
    (c6_sphere_intersect_miss 0 c6Sphere c6Ray none 1).1 (le_of_eq h1.symm)
      (by rw [h2]; norm_num)⟩

/-- C7 (amended): `Render` replaces a non-positive `RecursionDepth` with
the default limit 3 before tracing, so the outer per-pixel trace always
starts at a strictly positive depth — the depth ≤ 0 black rule can fire
only inside recursive reflect/refract calls — but the recursive
reflection/refraction contributions of a depth-0 scene are NOT zeroed:
they are traced up to the default 3 bounces. -/
theorem c7_depth_default (scene : Scene) :
    (scene.recursionDepth ≤ 0 → renderRecursionLimit scene = 3) ∧
    (0 < scene.recursionDepth → renderRecursionLimit scene = scene.recursionDepth) ∧
    0 < renderRecursionLimit scene := by
  unfold renderRecursionLimit
  by_cases h : scene.recursionDepth ≤ 0
  · simp only [if_pos h]
    exact ⟨fun _ => trivial, fun hh => absurd hh (not_lt.mpr h), by norm_num⟩
  · simp only [if_neg h]
    exact ⟨fun hh => absurd hh h, fun _ => trivial, lt_of_not_le h⟩

/-- Witness for C7's amended theorem at the depth-0 scene: the limit used
is 3. -/
theorem c7_depth_default_witness :
    c7Scene.recursionDepth ≤ 0 ∧ renderRecursionLimit c7Scene = 3 :=
  ⟨by norm_num [c7Scene], (c7_depth_default c7Scene).1 (by norm_num [c7Scene])⟩

/-- Counterexample to C7 as stated: rendering the depth-0 scene `c7Scene`
does NOT yield the ambient-plus-direct color with recursive contributions
zeroed.  The effective limit is 3, the camera ray hits the reflective
sphere, the ambient-plus-direct term is black, yet the traced color is
(1/4, 1/4, 1/4) — a pure reflection contribution. -/
theorem c7_depth_zero_counterexample :
    renderRecursionLimit c7Scene = 3 ∧
    (closestHit c7Scene c7Ray none 1).1 = some c7Hit ∧
    clampV (computeLighting c7Hit c7Scene c7Ray none 1).1 = ⟨0, 0, 0⟩ ∧
    (traceRay 1 (renderRecursionLimit c7Scene).toNat c7Scene c7Ray none).1 =
      ⟨1/4, 1/4, 1/4⟩ ∧
    (⟨1/4, 1/4, 1/4⟩ : Vec3) ≠ (⟨0, 0, 0⟩ : Vec3) := by
  refine ⟨rfl, by rw [c7ClosestHit], by rw [c7Lighting]; exact c7ClampZero, ?_, ?_⟩
  · rw [show (renderRecursionLimit c7Scene).toNat = 2 + 1 from rfl]
    rw [c7MainTrace]
  · intro h
    have h2 := congrArg Vec3.x h
    norm_num at h2

/-- C8 (amended): hit-time material resolution for a shader sphere pushes
`VInt 0`, then the real `u`, then the real `v` onto the shared evaluator
stack, evaluates the closure body under the closure's captured environment
(restoring the previous environment afterwards), and on success pops FOUR
values — three reals (the exponent `n` on top, then `ks`, then `kd`) and
then a `Point` — assembling them into a material whose other fields are
zero; whatever lies below those four values stays on the stack. -/
theorem c8_surface_protocol (s : RSphere) (p : Vec3) (st st' : Gml.EvalState)
    (fn : SurfaceClosure) (fuel : ℕ)
    (rest : List Gml.Value) (a b c kd ks n : ℝ)
    (hfn : s.surfaceFn = some fn)
    (hev : Gml.evalT fuel fn.code
      { stack := st.stack ++ [.vint 0, .vreal (sphereSurfaceU p), .vreal (sphereSurfaceV p)],
        env := fn.env, renderSink := st.renderSink, rendered := st.rendered } = (st', none))
    (hst : st'.stack = rest ++ [.vpoint a b c, .vreal kd, .vreal ks, .vreal n]) :
    computeSphereSurface s p (some st) fuel =
      (.ok { color := ⟨a, b, c⟩, reflectivity := 0, fuzziness := 0, transparency := 0,
             refractiveIndex := 0, kd := kd, ks := ks, specularExponent := n },
       some { st' with stack := rest, env := st.env }) := by
  have h1 : st'.stack =
      (((rest ++ [.vpoint a b c]) ++ [.vreal kd]) ++ [.vreal ks]) ++ [.vreal n] := by
    rw [hst]; simp
  simp only [computeSphereSurface, hfn, Gml.push, List.append_assoc, List.cons_append,
    List.singleton_append, List.nil_append]
  rw [hev]
  simp only [Gml.pop3, Gml.popValue, Gml.pop, h1, List.getLast?_concat, List.dropLast_concat,
    show ∀ r : ℝ, Gml.asVReal (.vreal r) = some r from fun _ => rfl,
    show ∀ x y z : ℝ, Gml.asPoint (.vpoint x y z) = some (x, y, z) from fun _ _ _ => rfl]

/-- Witness for C8's amended theorem on the concrete shader `c8Body`: the
body leaves exactly four values; they are popped into the material
`(color (1,1,1), kd 1, ks 2, n 3)` and the environment is restored. -/
theorem c8_surface_protocol_witness :
    computeSphereSurface c8Sphere c8Point (some Gml.initState) 32 =
      (.ok c8Result, some { stack := [], env := [], renderSink := true, rendered := [] }) :=
  c8_surface_protocol c8Sphere c8Point Gml.initState c8PostBody ⟨c8Body, []⟩ 32
    [] 1 1 1 1 2 3 rfl rfl rfl

/-- Counterexample to C8 as stated: the claim demands that on success
exactly SIX values be left on the stack, but the concrete shader `c8Body`
leaves exactly FOUR values after its body runs (a Point and three reals),
and material resolution nevertheless succeeds, consuming all four. -/
theorem c8_surface_protocol_counterexample :
    computeSphereSurface c8Sphere c8Point (some Gml.initState) 32 =
      (.ok c8Result, some { stack := [], env := [], renderSink := true, rendered := [] }) ∧
    (Gml.evalT 32 c8Body
      { stack := [.vint 0, .vreal (sphereSurfaceU c8Point), .vreal (sphereSurfaceV c8Point)],
        env := [], renderSink := true, rendered := [] }).1.stack.length = 4 ∧
    (4 : ℕ) ≠ 6 :=
  ⟨rfl, rfl, by decide⟩

end Rt
